import Mathlib

/-!
Verification development for the owletto-crawlers repository.

Shallow embedding of the incremental paginated collection engine that the
site plugins (Reddit, Hacker News, GitHub, Google Maps, X/Twitter, Capterra)
re-implement per source.  Machine-level time values (JavaScript `Date`
instants) are modelled as `Int` epoch milliseconds; `created_utc`-style
fields are epoch seconds.  Fallible network calls are modelled as explicit
`Except`/`Option`-valued parameters; each plugin's control flow is
translated from its TypeScript source.
-/

namespace Owletto

/-- Normalized content record (`Content` / `EventEnvelope` in the sources).
Only the fields the verified control flow touches are carried; `published_at`
is epoch milliseconds, `points` mirrors `metadata.score` (raw story points on
Hacker News), `replyCount` mirrors `metadata.reply_count`, `externalUrl`
mirrors `metadata.external_url`, and `fetchedContent` mirrors
`metadata.fetched_content`. -/
structure Content where
  external_id : String
  title : String := ""
  content : String := ""
  author : String := ""
  url : String := ""
  published_at : Int := 0
  score : Int := 0
  parent_external_id : Option String := none
  replyCount : Int := 0
  points : Int := 0
  externalUrl : Option String := none
  fetchedContent : Bool := false
deriving DecidableEq, Repr

/-- Character-list prefix test (structural, kernel-evaluable). -/
def isPrefixChars : List Char → List Char → Bool
  | [], _ => true
  | _ :: _, [] => false
  | p :: ps, c :: cs => p == c && isPrefixChars ps cs

/-- Character-list substring occurrence test. -/
def containsChars (pat : List Char) : List Char → Bool
  | [] => isPrefixChars pat []
  | c :: cs => isPrefixChars pat (c :: cs) || containsChars pat cs

/-- JavaScript `String.prototype.includes`, over the character data. -/
def strContains (s pat : String) : Bool :=
  containsChars pat.data s.data

/-- JavaScript `String.prototype.toLowerCase` (ASCII-relevant cases), over
the character data. -/
def strToLower (s : String) : String :=
  String.mk (s.data.map Char.toLower)

/-- JavaScript `String.prototype.startsWith`, over the character data. -/
def strStarts (s pat : String) : Bool :=
  isPrefixChars pat.data s.data

/-- Drop the first occurrence of `pat` from the character list (empty
replacement), the semantics of JavaScript `String.prototype.replace` with a
string pattern. -/
def dropFirstChars (pat : List Char) : List Char → List Char
  | [] => []
  | c :: cs =>
    if isPrefixChars pat (c :: cs) then (c :: cs).drop pat.length
    else c :: dropFirstChars pat cs

/-- JavaScript `s.replace(pat, '')` for a string pattern: removes the first
occurrence only. -/
def replaceFirst (s pat : String) : String :=
  String.mk (dropFirstChars pat.data s.data)

/-- Decimal digit parsing over a character list. -/
def digitsToNat (acc : Nat) : List Char → Nat
  | [] => acc
  | c :: cs =>
    if c.isDigit then digitsToNat (acc * 10 + (c.toNat - 48)) cs
    else digitsToNat acc cs

/-- JavaScript `parseInt(s, 10)` restricted to the well-formed inputs the
claims use: an optional minus sign followed by digits; anything without a
leading digit yields `none` (`NaN`). -/
def parseIntDec (s : String) : Option Int :=
  match s.data with
  | ('-') :: c :: cs =>
    if c.isDigit then some (-(digitsToNat 0 (c :: cs) : Int)) else none
  | c :: cs => if c.isDigit then some ((digitsToNat 0 (c :: cs) : Int)) else none
  | [] => none

/-- Descending comparison used by every `sort((a, b) => b.published_at - a.published_at)`
call in the sources. -/
def dateGe (a b : Content) : Prop :=
  b.published_at ≤ a.published_at

instance : DecidableRel dateGe := fun a b => by
  unfold dateGe; infer_instance

/-- The in-place `Array.prototype.sort` by `published_at` descending, modelled
as an insertion sort (stable, like the ECMAScript sort). -/
def sortByDateDesc (l : List Content) : List Content :=
  List.insertionSort dateGe l

/-- Descending comparison on `score` used by the X thread-selection sort
`sort((a, b) => b.score - a.score)`. -/
def scoreGe (a b : Content) : Prop :=
  b.score ≤ a.score

instance : DecidableRel scoreGe := fun a b => by
  unfold scoreGe; infer_instance

/-- The in-place `Array.prototype.sort` by `score` descending. -/
def sortByScoreDesc (l : List Content) : List Content :=
  List.insertionSort scoreGe l

theorem sortByDateDesc_sorted (l : List Content) :
    (sortByDateDesc l).Sorted dateGe := by
  haveI : IsTotal Content dateGe := ⟨fun a b => le_total b.published_at a.published_at⟩
  haveI : IsTrans Content dateGe := ⟨fun _ _ _ h1 h2 => le_trans h2 h1⟩
  exact List.sorted_insertionSort dateGe l

theorem sortByDateDesc_perm (l : List Content) :
    (sortByDateDesc l).Perm l :=
  List.perm_insertionSort dateGe l

theorem mem_sortByDateDesc {c : Content} {l : List Content} :
    c ∈ sortByDateDesc l ↔ c ∈ l :=
  (sortByDateDesc_perm l).mem_iff

theorem sortByDateDesc_length (l : List Content) :
    (sortByDateDesc l).length = l.length :=
  (sortByDateDesc_perm l).length_eq

/-- Modelled from the spec: the `Deduplicator` (spec §4.2).  The method
`deduplicate(contents, seenIds)` lives in the shared base-crawler class
(`ApiPaginatedCrawler` / `BaseCrawler`), which the repository imports as
`./api-paginated` / `./base` but which is not under `src/`; per the spec it
keeps a run-scoped set of seen `external_id`s, keeps the first occurrence of
each id and drops later ones. -/
def dedupGo (seen : List String) : List Content → List Content
  | [] => []
  | c :: rest =>
    if c.external_id ∈ seen then dedupGo seen rest
    else c :: dedupGo (c.external_id :: seen) rest

/-- Modelled from the spec: entry point of the `Deduplicator` with an empty
run-scoped seen set, as at the `pull` call-sites. -/
def deduplicate (items : List Content) : List Content :=
  dedupGo [] items

theorem dedupGo_sublist (seen : List String) (items : List Content) :
    (dedupGo seen items).Sublist items := by
  induction items generalizing seen with
  | nil => simp [dedupGo]
  | cons c rest ih =>
    by_cases h : c.external_id ∈ seen
    · simpa [dedupGo, h] using (ih seen).trans (List.sublist_cons_self c rest)
    · simpa [dedupGo, h] using (ih (c.external_id :: seen)).cons₂ c

theorem deduplicate_sublist (items : List Content) :
    (deduplicate items).Sublist items :=
  dedupGo_sublist [] items

theorem dedupGo_count (seen : List String) (items : List Content) (i : String) :
    ((dedupGo seen items).map Content.external_id).count i =
      if i ∈ seen then 0 else min 1 ((items.map Content.external_id).count i) := by
  induction items generalizing seen with
  | nil => simp [dedupGo]
  | cons c rest ih =>
    by_cases hc : c.external_id ∈ seen
    · rw [dedupGo, if_pos hc, ih seen]
      by_cases hi : i ∈ seen
      · simp [hi]
      · have hne : ¬ i = c.external_id := fun h => hi (h ▸ hc)
        simp [hi, List.count_cons, hne]
    · rw [dedupGo, if_neg hc]
      simp only [List.map_cons, List.count_cons, ih (c.external_id :: seen), List.mem_cons]
      by_cases hci : i = c.external_id
      · rw [hci]
        simp [hc]
      · have hic : ¬ c.external_id = i := fun h => hci h.symm
        by_cases hi : i ∈ seen <;> simp [hi, hci, hic]

/-- Each `external_id` occurs in the deduplicated output exactly
`min 1 (occurrences in the input)` times: present ids exactly once. -/
theorem deduplicate_count (items : List Content) (i : String) :
    ((deduplicate items).map Content.external_id).count i =
      min 1 ((items.map Content.external_id).count i) := by
  simpa using dedupGo_count [] items i

theorem dedupGo_mem_not_seen (seen : List String) (items : List Content)
    (c : Content) (hc : c ∈ dedupGo seen items) : c.external_id ∉ seen := by
  induction items generalizing seen with
  | nil => simp [dedupGo] at hc
  | cons d rest ih =>
    by_cases hd : d.external_id ∈ seen
    · rw [dedupGo, if_pos hd] at hc
      exact ih seen hc
    · rw [dedupGo, if_neg hd] at hc
      rcases List.mem_cons.mp hc with h | h
      · exact h ▸ hd
      · intro hmem
        exact ih (d.external_id :: seen) h (List.mem_cons_of_mem _ hmem)

theorem dedupGo_find (seen : List String) (items : List Content)
    (c : Content) (hc : c ∈ dedupGo seen items) :
    items.find? (fun d => d.external_id == c.external_id) = some c := by
  induction items generalizing seen with
  | nil => simp [dedupGo] at hc
  | cons d rest ih =>
    by_cases hd : d.external_id ∈ seen
    · rw [dedupGo, if_pos hd] at hc
      have hns := dedupGo_mem_not_seen seen rest c hc
      have hne : (d.external_id == c.external_id) = false := by
        rw [beq_eq_false_iff_ne]
        intro h
        exact hns (h ▸ hd)
      simp only [List.find?_cons, hne]
      exact ih seen hc
    · rw [dedupGo, if_neg hd] at hc
      rcases List.mem_cons.mp hc with h | h
      · subst h
        simp [List.find?_cons]
      · have hns := dedupGo_mem_not_seen (d.external_id :: seen) rest c h
        have hne : (d.external_id == c.external_id) = false := by
          rw [beq_eq_false_iff_ne]
          intro heq
          exact hns (by simp [heq])
        simp only [List.find?_cons, hne]
        exact ih (d.external_id :: seen) h

/-- Every element of the deduplicated output is the first input element
carrying its `external_id`. -/
theorem deduplicate_first_occurrence (items : List Content) (c : Content)
    (hc : c ∈ deduplicate items) :
    items.find? (fun d => d.external_id == c.external_id) = some c :=
  dedupGo_find [] items c hc

namespace Reddit

/-- One element of `listing.data.children[i].data` in
`src/connectors/reddit.ts` (the union `RedditPost & RedditComment`);
`created_utc` is epoch seconds and `crosspost_parent` is present exactly when
the `Option` is `some` (the JavaScript truthiness test additionally treats an
empty string as absent). -/
structure Child where
  name : String := ""
  author : String := ""
  created_utc : Int := 0
  title : String := ""
  selftext : String := ""
  body : String := ""
  crosspost_parent : Option String := none
  permalink : String := ""
deriving DecidableEq, Repr

/-- One Reddit listing response: `listing.data.children` plus
`listing.data.after`. -/
structure Listing where
  children : List Child := []
  after : Option String := none
deriving DecidableEq, Repr

/-- The `RedditCheckpoint` interface of `src/connectors/reddit.ts`
(`last_timestamp` as epoch milliseconds, `pagination_token`). -/
structure Checkpoint where
  last_timestamp : Option Int := none
  pagination_token : Option String := none
deriving DecidableEq, Repr

/-- `RedditConnector.transformPost`: only the identity and timestamp fields
matter to the claims (the engagement score is computed by the external
`calculateEngagementScore` collaborator and does not influence control
flow here, so it is left at 0). -/
def transformPost (p : Child) : Content :=
  { external_id := ("reddit_post_") ++ p.name
    title := p.title
    content := p.selftext.trim
    author := p.author
    published_at := p.created_utc * 1000 }

/-- `RedditConnector.transformComment` (parent-id derivation elided: it does
not affect the claims settled here). -/
def transformComment (c : Child) : Content :=
  { external_id := ("reddit_comment_") ++ c.name
    content := c.body
    author := c.author
    published_at := c.created_utc * 1000 }

/-- Whether the JavaScript truthiness test on `crosspost_parent` holds. -/
def hasCrosspostParent (c : Child) : Bool :=
  match c.crosspost_parent with
  | some s => s ≠ ""
  | none => false

/-- The `for (const child of children)` loop body of `RedditConnector.sync`
(src/connectors/reddit.ts lines 214-238): returns the events pushed from this
page together with the `reachedCutoff` flag.  An item strictly older than the
cutoff instant (`itemDate < cutoffDate`, milliseconds) stops the page scan. -/
def processChildren (contentType : String) (cutoffMs : Int) :
    List Child → List Content × Bool
  | [] => ([], false)
  | c :: rest =>
    if c.created_utc * 1000 < cutoffMs then ([], true)
    else
      let tail := processChildren contentType cutoffMs rest
      if c.author = ("[deleted]") then tail
      else if contentType = ("post") then
        if hasCrosspostParent c then tail
        else if c.selftext = ("[removed]") ∨ c.selftext = ("[deleted]") then tail
        else (transformPost c :: tail.1, tail.2)
      else
        if c.body = ("[removed]") ∨ c.body = ("[deleted]") then tail
        else (transformComment c :: tail.1, tail.2)

/-- Output of the `while` pagination loop of `RedditConnector.sync`: the
accumulated events, the number of `fetch` calls performed, and the final value
of the `after` variable. -/
structure LoopOut where
  events : List Content := []
  fetches : Nat := 0
  after : Option String := none
deriving DecidableEq, Repr

/-- The `while (page < this.MAX_PAGES && !reachedCutoff)` loop of
`RedditConnector.sync` (src/connectors/reddit.ts lines 177-248), with the
page fetch modelled as `fetchFn i` for the `i`-th fetch of the run.  The
fuel argument is `MAX_PAGES - page`. -/
def syncLoop (fetchFn : Nat → Listing) (contentType : String) (cutoffMs : Int) :
    Nat → Nat → Option String → LoopOut
  | 0, _, after => { events := [], fetches := 0, after := after }
  | fuel + 1, idx, after =>
    let listing := fetchFn idx
    if listing.children = [] then
      { events := [], fetches := 1, after := after }
    else
      let pr := processChildren contentType cutoffMs listing.children
      if pr.2 then
        { events := pr.1, fetches := 1, after := listing.after }
      else
        match listing.after with
        | none => { events := pr.1, fetches := 1, after := none }
        | some a =>
          let rest := syncLoop fetchFn contentType cutoffMs fuel (idx + 1) (some a)
          { events := pr.1 ++ rest.events, fetches := rest.fetches + 1,
            after := rest.after }

/-- `MAX_PAGES` of the Reddit connector. -/
def MAX_PAGES : Nat := 10

/-- Result of `RedditConnector.sync`. -/
structure SyncOut where
  events : List Content
  checkpoint : Checkpoint
  items_found : Nat
deriving DecidableEq, Repr

/-- `RedditConnector.sync` (src/connectors/reddit.ts lines 160-262).  The
supplied `checkpoint` argument mirrors `ctx.checkpoint`; the body never reads
it.  `cutoffMs` is the lookback cutoff (`new Date()` minus `lookback_days`
days) and `nowMs` is the wall-clock instant taken at the end of the run for
the written checkpoint (`new Date().toISOString()`). -/
def sync (fetchFn : Nat → Listing) (contentType : String) (cutoffMs nowMs : Int)
    (_checkpoint : Option Checkpoint) : SyncOut :=
  let out := syncLoop fetchFn contentType cutoffMs MAX_PAGES 0 none
  { events := out.events
    checkpoint := { last_timestamp := some nowMs, pagination_token := out.after }
    items_found := out.events.length }

theorem syncLoop_fetches_le (fetchFn : Nat → Listing) (ct : String) (cut : Int)
    (fuel idx : Nat) (after : Option String) :
    (syncLoop fetchFn ct cut fuel idx after).fetches ≤ fuel := by
  induction fuel generalizing idx after with
  | zero => simp [syncLoop]
  | succ n ih =>
    rw [syncLoop]
    by_cases h1 : (fetchFn idx).children = []
    · simp [h1]
    · simp only [if_neg h1]
      by_cases h2 : (processChildren ct cut (fetchFn idx).children).2
      · simp [h2]
      · simp only [if_neg h2]
        cases hafter : (fetchFn idx).after with
        | none => simp
        | some a =>
          simp only
          exact Nat.succ_le_succ (ih (idx + 1) (some a))

theorem syncLoop_stop_conditions (fetchFn : Nat → Listing) (ct : String)
    (cut : Int) (fuel idx : Nat) (after : Option String)
    (h : (fetchFn idx).children = [] ∨ (fetchFn idx).after = none) :
    (syncLoop fetchFn ct cut (fuel + 1) idx after).fetches = 1 := by
  rw [syncLoop]
  rcases h with h | h
  · simp [h]
  · by_cases h1 : (fetchFn idx).children = []
    · simp [h1]
    · simp only [if_neg h1]
      by_cases h2 : (processChildren ct cut (fetchFn idx).children).2
      · simp [h2]
      · simp [if_neg h2, h]

end Reddit

namespace HNConn

/-- An Algolia search hit as consumed by the Hacker News connector
(src/unnamed/part_004); `created_at_i` is epoch seconds. -/
structure Hit where
  objectID : String := ""
  created_at_i : Int := 0
  author : String := ""
  title : Option String := none
  story_text : Option String := none
  comment_text : Option String := none
  url : Option String := none
  points : Option Int := none
  num_comments : Option Int := none
  story_id : Option Int := none
  parent_id : Option Int := none
  tags : List String := []
deriving DecidableEq, Repr

/-- One Algolia response page (`hits`, `page`, `nbPages`). -/
structure Resp where
  hits : List Hit := []
  page : Int := 0
  nbPages : Int := 0
deriving DecidableEq, Repr

/-- `HackerNewsConnector.transformStory` (identity/timestamp fields). -/
def transformStory (h : Hit) : Content :=
  { external_id := ("hn_story_") ++ h.objectID
    title := h.title.getD ("")
    content := (h.story_text.getD ("")).trim
    author := h.author
    published_at := h.created_at_i * 1000
    points := h.points.getD 0
    replyCount := h.num_comments.getD 0
    externalUrl := h.url }

/-- `HackerNewsConnector.transformComment` (identity/timestamp fields). -/
def transformComment (h : Hit) : Content :=
  { external_id := ("hn_comment_") ++ h.objectID
    content := h.comment_text.getD ("")
    author := h.author
    published_at := h.created_at_i * 1000 }

/-- One hit transformed according to the configured `content_type`. -/
def transformHit (contentType : String) (h : Hit) : Content :=
  if contentType = ("comment") then transformComment h else transformStory h

/-- `MAX_PAGES` of the Hacker News connector. -/
def MAX_PAGES : Nat := 50

/-- The `while (hasMore && page < this.MAX_PAGES)` loop of
`HackerNewsConnector.sync` (src/unnamed/part_004 lines 161-190): `fetchFn p`
is the Algolia response for request page `p`; `hasMore` is recomputed from the
response as `data.page < data.nbPages - 1 && data.hits.length > 0`.  Returns
the accumulated events and the number of fetches. -/
def syncLoop (fetchFn : Nat → Resp) (contentType : String) :
    Nat → Nat → List Content × Nat
  | 0, _ => ([], 0)
  | fuel + 1, p =>
    let data := fetchFn p
    let evs := data.hits.map (transformHit contentType)
    if data.page < data.nbPages - 1 ∧ data.hits ≠ [] then
      let rest := syncLoop fetchFn contentType fuel (p + 1)
      (evs ++ rest.1, rest.2 + 1)
    else (evs, 1)

theorem hnSyncLoop_fetches_le (fetchFn : Nat → Resp) (ct : String)
    (fuel p : Nat) : (syncLoop fetchFn ct fuel p).2 ≤ fuel := by
  induction fuel generalizing p with
  | zero => simp [syncLoop]
  | succ n ih =>
    rw [syncLoop]
    by_cases h : (fetchFn p).page < (fetchFn p).nbPages - 1 ∧ (fetchFn p).hits ≠ []
    · simp only [if_pos h]
      exact Nat.succ_le_succ (ih (p + 1))
    · simp [h]

theorem hnSyncLoop_stop_conditions (fetchFn : Nat → Resp) (ct : String)
    (fuel p : Nat)
    (h : ¬ ((fetchFn p).page < (fetchFn p).nbPages - 1) ∨ (fetchFn p).hits = []) :
    (syncLoop fetchFn ct (fuel + 1) p).2 = 1 := by
  rw [syncLoop]
  have hcond : ¬ ((fetchFn p).page < (fetchFn p).nbPages - 1 ∧ (fetchFn p).hits ≠ []) := by
    rcases h with h | h
    · exact fun hx => h hx.1
    · exact fun hx => hx.2 h
  simp [hcond]

end HNConn

namespace HNCrawler

/-- The `HackerNewsCheckpoint` of src/unnamed/part_005 (fields relevant to
the claims). -/
structure Checkpoint where
  last_timestamp : Option Int := none
  total_items_processed : Int := 0
  processed_story_ids : List Int := []
deriving DecidableEq, Repr

/-- The domain filter in `enrichStoriesWithExternalContent`
(`externalUrl.includes('news.ycombinator.com')`). -/
def ycDomain : String := "news.ycombinator.com"

/-- Qualification test of `HackerNewsCrawler.enrichStoriesWithExternalContent`
(src/unnamed/part_005 lines 475-481): no content yet, a truthy external URL,
truthy points of at least `ENGAGEMENT_THRESHOLD = 50`, and not a
news.ycombinator.com link.  `c.points` mirrors `metadata.score`. -/
def qualifiesForFetch (c : Content) : Bool :=
  c.content = ("") &&
    (match c.externalUrl with
     | some u => u ≠ ("") && decide (50 ≤ c.points) && !(strContains u ycDomain)
     | none => false)

/-- `HackerNewsCrawler.fetchExternalContent` (src/unnamed/part_005 lines
504-551) at its interface boundary: the transport/parsing pipeline is the
`transport` parameter (an `Except` models a thrown error), and the catch
block converts any thrown error into `null`. -/
def fetchExternalContent (transport : String → Except String (Option String))
    (url : String) : Option String :=
  match transport url with
  | .ok r => r
  | .error _ => none

/-- `HackerNewsCrawler.enrichStoriesWithExternalContent` (src/unnamed/part_005
lines 469-499): walks the contents in list order, performs the expensive
fetch for every qualifying story, and attaches fetched content when the
fetch yields something.  Returns the updated contents together with the list
of URLs for which an expensive fetch was performed.  There is no ranking, no
budget cap, and no lookup of `processed_story_ids`. -/
def enrichStories (transport : String → Except String (Option String)) :
    List Content → List Content × List String
  | [] => ([], [])
  | c :: rest =>
    let tail := enrichStories transport rest
    if qualifiesForFetch c then
      match c.externalUrl with
      | some u =>
        match fetchExternalContent transport u with
        | some md =>
          ({ c with content := md, fetchedContent := true } :: tail.1, u :: tail.2)
        | none => (c :: tail.1, u :: tail.2)
      | none => (c :: tail.1, tail.2)
    else (c :: tail.1, tail.2)

/-- Numeric story id recovered from an `external_id`, as in
`parseInt(c.external_id.replace('hn_story_', ''), 10)` (a non-numeric
remainder, which yields `NaN` in JavaScript, is collapsed to 0; the claims
only use well-formed ids). -/
def storyNum (s : String) : Int :=
  (parseIntDec (replaceFirst s ("hn_story_"))).getD 0

/-- Result of the modelled part of `HackerNewsCrawler.pull`. -/
structure PullOut where
  contents : List Content
  checkpoint : Checkpoint
  items_found : Nat
  items_skipped : Nat
  fetchedUrls : List String
deriving DecidableEq, Repr

/-- The post-pagination part of `HackerNewsCrawler.pull` (src/unnamed/part_005
lines 390-421): dedupe, sort by `published_at` descending, enrich
high-engagement stories, and extend `processed_story_ids` with all unique
story ids.  `contents` is the accumulated output of the base-class
`paginate` call, taken as a parameter. -/
def pullPost (transport : String → Except String (Option String))
    (contents : List Content) (checkpoint : Option Checkpoint)
    (isComment : Bool) : PullOut :=
  let uniqueContents := deduplicate contents
  let sorted := sortByDateDesc uniqueContents
  let enriched := if isComment then (sorted, []) else enrichStories transport sorted
  let prior := (checkpoint.map Checkpoint.processed_story_ids).getD []
  let processed :=
    if isComment then prior
    else prior ++ sorted.map (fun c => storyNum c.external_id)
  { contents := enriched.1
    checkpoint := { last_timestamp := none, total_items_processed := 0,
                    processed_story_ids := processed }
    items_found := contents.length
    items_skipped := contents.length - uniqueContents.length
    fetchedUrls := enriched.2 }

theorem enrichStories_length (transport : String → Except String (Option String))
    (l : List Content) : (enrichStories transport l).1.length = l.length := by
  induction l with
  | nil => simp [enrichStories]
  | cons c rest ih =>
    rw [enrichStories]
    by_cases hq : qualifiesForFetch c
    · simp only [if_pos hq]
      cases hu : c.externalUrl with
      | none => simpa using ih
      | some u =>
        cases hf : fetchExternalContent transport u with
        | none => simp [hf]; simpa using ih
        | some md => simp [hf]; simpa using ih
    · simpa [if_neg hq] using ih

theorem enrichStories_ids (transport : String → Except String (Option String))
    (l : List Content) :
    (enrichStories transport l).1.map Content.external_id =
      l.map Content.external_id := by
  induction l with
  | nil => simp [enrichStories]
  | cons c rest ih =>
    rw [enrichStories]
    by_cases hq : qualifiesForFetch c
    · simp only [if_pos hq]
      cases hu : c.externalUrl with
      | none => simpa using ih
      | some u =>
        cases hf : fetchExternalContent transport u with
        | none => simp [hf]; simpa using ih
        | some md => simp [hf]; simpa using ih
    · simpa [if_neg hq] using ih

/-- When the transport throws (or yields nothing) for every URL, every item
passes through the enrichment loop unchanged. -/
theorem enrichStories_failure_keeps_items
    (transport : String → Except String (Option String))
    (hfail : ∀ u, fetchExternalContent transport u = none)
    (l : List Content) : (enrichStories transport l).1 = l := by
  induction l with
  | nil => simp [enrichStories]
  | cons c rest ih =>
    rw [enrichStories]
    by_cases hq : qualifiesForFetch c
    · simp only [if_pos hq]
      cases hu : c.externalUrl with
      | none => simpa using ih
      | some u => simp [hfail u, ih]
    · simp [if_neg hq, ih]

/-- The number of expensive fetches equals the number of qualifying
candidates: no budget is applied. -/
theorem enrichStories_fetch_count (transport : String → Except String (Option String))
    (l : List Content)
    (hok : ∀ c ∈ l, qualifiesForFetch c → c.externalUrl.isSome) :
    (enrichStories transport l).2.length = (l.filter qualifiesForFetch).length := by
  induction l with
  | nil => simp [enrichStories]
  | cons c rest ih =>
    have hok' : ∀ c ∈ rest, qualifiesForFetch c → c.externalUrl.isSome :=
      fun d hd => hok d (List.mem_cons_of_mem _ hd)
    rw [enrichStories]
    by_cases hq : qualifiesForFetch c
    · have hsome := hok c (List.mem_cons_self _ _) hq
      simp only [if_pos hq]
      cases hu : c.externalUrl with
      | none => rw [hu] at hsome; simp at hsome
      | some u =>
        cases hf : fetchExternalContent transport u with
        | none => simp [hf, List.filter_cons, hq, ih hok']
        | some md => simp [hf, List.filter_cons, hq, ih hok']
    · simp [if_neg hq, List.filter_cons, hq, ih hok']

end HNCrawler

namespace GitHubCrawler

/-- Result of the modelled part of `GitHubCrawler.pull`. -/
structure PullOut where
  contents : List Content
  items_found : Nat
  items_skipped : Nat
deriving DecidableEq, Repr

/-- The post-pagination part of `GitHubCrawler.pull`
(src/crawlers/github.ts lines 728-741): dedupe with a fresh run-scoped seen
set, sort by `published_at` descending, and report
`items_skipped = contents.length - uniqueContents.length`. -/
def pullPost (contents : List Content) : PullOut :=
  let uniqueContents := deduplicate contents
  let sorted := sortByDateDesc uniqueContents
  { contents := sorted
    items_found := contents.length
    items_skipped := contents.length - uniqueContents.length }

end GitHubCrawler

namespace RedditCrawler

/-- Result of the modelled part of `RedditCrawler.pull`
(src/connectors/ios_appstore.ts). -/
structure PullOut where
  contents : List Content
  items_found : Nat
  items_skipped : Nat
deriving DecidableEq, Repr

/-- The post-pagination part of `RedditCrawler.pull`
(src/connectors/ios_appstore.ts lines 809-843): identical dedupe-sort-report
shape to the GitHub crawler's pull. -/
def pullPost (contents : List Content) : PullOut :=
  let uniqueContents := deduplicate contents
  let sorted := sortByDateDesc uniqueContents
  { contents := sorted
    items_found := contents.length
    items_skipped := contents.length - uniqueContents.length }

end RedditCrawler

namespace GMaps

/-- One Google review as used by `GoogleMapsCrawler.pull`
(src/crawlers/github.ts, GoogleMapsCrawler section); `time` is epoch
seconds. -/
structure Review where
  time : Int := 0
  text : String := ""
  author_name : String := ""
  rating : Int := 0
deriving DecidableEq, Repr

/-- The `GMapsCheckpoint` (`last_review_time` in epoch seconds,
`last_timestamp` in epoch milliseconds). -/
structure Checkpoint where
  last_review_time : Option Int := none
  last_timestamp : Option Int := none
deriving DecidableEq, Repr

/-- The review-to-content transformation inside `GoogleMapsCrawler.pull`
(external id `placeId_time`, `published_at = time * 1000`). -/
def toContent (placeId : String) (r : Review) : Content :=
  { external_id := placeId ++ ("_") ++ toString r.time
    content := r.text
    author := if r.author_name = ("") then ("Anonymous") else r.author_name
    published_at := r.time * 1000 }

/-- Result of `GoogleMapsCrawler.pull`. -/
structure PullOut where
  contents : List Content
  checkpoint : Checkpoint
  items_found : Nat
  items_skipped : Nat
deriving DecidableEq, Repr

/-- `GoogleMapsCrawler.pull` (src/crawlers/github.ts, GoogleMapsCrawler
section, lines 1002-1055 of the file): transform the fetched reviews, drop
items not strictly newer than the checkpoint's `last_timestamp`
(`c.published_at > (checkpoint.last_timestamp || new Date(0))`), sort
descending, and derive the written checkpoint from the newest kept item
(`Math.floor(.../1000)` is modelled with flooring integer division).
`nowMs` models the `new Date()` fallback used when no items survive. -/
def pull (placeId : String) (reviews : List Review) (checkpoint : Option Checkpoint)
    (nowMs : Int) : PullOut :=
  let contents := reviews.map (toContent placeId)
  let newContents :=
    match checkpoint with
    | some cp => contents.filter (fun c => (cp.last_timestamp.getD 0) < c.published_at)
    | none => contents
  let sorted := sortByDateDesc newContents
  let newCheckpoint : Checkpoint :=
    match sorted with
    | first :: _ =>
      { last_review_time := some (Int.fdiv first.published_at 1000)
        last_timestamp := some first.published_at }
    | [] =>
      { last_review_time := checkpoint.bind Checkpoint.last_review_time
        last_timestamp :=
          some (((checkpoint.bind Checkpoint.last_timestamp)).getD nowMs) }
  { contents := sorted
    checkpoint := newCheckpoint
    items_found := reviews.length
    items_skipped := reviews.length - newContents.length }

end GMaps

namespace X

/-- A raw tweet as yielded by `scraper.searchTweets` in src/unnamed/part_002.
Optional fields model JavaScript `undefined`; numeric engagement fields use 0
for the `|| 0` defaulting. -/
structure Tweet where
  id : Option String := none
  text : Option String := none
  username : Option String := none
  name : Option String := none
  likes : Int := 0
  retweets : Int := 0
  replies : Int := 0
  quotes : Int := 0
  timeParsed : Option Int := none
  isRetweet : Bool := false
  isReply : Bool := false
  isQuoted : Bool := false
  inReplyToStatusId : Option String := none
deriving DecidableEq, Repr

/-- The `XCheckpoint` of src/unnamed/part_002. -/
structure Checkpoint where
  last_tweet_id : Option String := none
  last_timestamp : Option Int := none
  processed_thread_ids : List String := []
deriving DecidableEq, Repr

/-- The `XOptions` of src/unnamed/part_002 (defaults applied by `pull` via
JavaScript `||`). -/
structure Options where
  search_query : String := ""
  min_engagement_for_threads : Option Int := none
  max_threads_to_fetch : Option Nat := none
deriving DecidableEq, Repr

/-- `options.min_engagement_for_threads || 100` (a configured 0 is falsy and
falls back to 100). -/
def minEngagement (o : Options) : Int :=
  match o.min_engagement_for_threads with
  | some v => if v = 0 then 100 else v
  | none => 100

/-- `options.max_threads_to_fetch || 100`. -/
def maxThreads (o : Options) : Nat :=
  match o.max_threads_to_fetch with
  | some v => if v = 0 then 100 else v
  | none => 100

/-- The engagement scoring collaborator `calculateEngagementScore('x', data)`
is external to the repository; it is threaded through the model as a function
of `(reply_count, upvotes, score)`. -/
abbrev ScoreFn := Int → Int → Int → Int

/-- Whether the checkpoint-stop test
`checkpoint?.last_tweet_id && tweet.id === checkpoint.last_tweet_id` holds. -/
def matchesCheckpoint (cpLast : Option String) (t : Tweet) : Bool :=
  match cpLast with
  | some s => s ≠ ("") && t.id == some s
  | none => false

/-- The primary `for await (const tweet of scraper.searchTweets(...))` loop of
`XCrawler.pull` (src/unnamed/part_002 lines 184-203): collects raw tweets up
to `maxResults`, skipping already-seen ids and stopping at the checkpoint
tweet.  Returns the kept tweets, the final seen-id set, and the
`foundCheckpoint` flag. -/
def primaryLoop (cpLast : Option String) (maxResults : Nat) :
    List Tweet → List Tweet → List String → List Tweet × List String × Bool
  | [], acc, seen => (acc.reverse, seen, false)
  | t :: rest, acc, seen =>
    if maxResults ≤ acc.length then (acc.reverse, seen, false)
    else if (t.id.getD ("")) ∈ seen then primaryLoop cpLast maxResults rest acc seen
    else if matchesCheckpoint cpLast t then (acc.reverse, seen, true)
    else primaryLoop cpLast maxResults rest (t :: acc) ((t.id.getD ("")) :: seen)

/-- The `tweets.filter((tweet) => tweet.id && tweet.text)` truthiness test. -/
def validTweet (t : Tweet) : Bool :=
  (match t.id with | some s => s ≠ ("") | none => false) &&
    (match t.text with | some s => s ≠ ("") | none => false)

/-- The `@`-prefixing of authors in `XCrawler.pull`. -/
def atAuthor (a : String) : String :=
  if strStarts a ("@") then a else ("@") ++ a

/-- The primary-tweet transformation of `XCrawler.pull` (lines 206-236);
`nowMs` models the `new Date()` fallback for a missing `timeParsed`. -/
def transformTweet (scoreFn : ScoreFn) (nowMs : Int) (t : Tweet) : Content :=
  { external_id := t.id.getD ("")
    content := t.text.getD ("")
    author := atAuthor ((t.username.getD (t.name.getD ("Unknown"))))
    published_at := t.timeParsed.getD nowMs
    score := scoreFn t.replies t.likes (t.retweets * 2 + t.likes)
    replyCount := t.replies }

/-- The hard-coded `officialAccounts` list. -/
def officialAccounts : List String :=
  [("Google"), ("GoogleDeepMind"), ("GeminiApp"), ("GoogleAI"), ("GoogleDocs")]

/-- The candidate filter of the thread pass (lines 251-259): official
author, engagement at or above the threshold, or more than 30 replies. -/
def isThreadCandidate (minEng : Int) (c : Content) : Bool :=
  officialAccounts.any (fun acc => strContains (strToLower c.author) (strToLower acc)) ||
    decide (minEng ≤ c.score) || decide (30 < c.replyCount)

/-- Candidate ranking and budget cap (lines 262-264):
`candidateTweets.sort((a, b) => b.score - a.score).slice(0, maxThreads)`. -/
def threadTargets (minEng : Int) (budget : Nat) (contents : List Content) :
    List Content :=
  (sortByScoreDesc (contents.filter (isThreadCandidate minEng))).take budget

/-- The reply-collection loop over one conversation search (lines 289-300):
cap at `maxReplies = 50`, skip the root tweet, keep only actual replies. -/
def collectReplies (rootId : String) : List Tweet → Nat → List Tweet
  | _, 0 => []
  | [], _ => []
  | r :: rest, cap + 1 =>
    if r.id == some rootId then collectReplies rootId rest (cap + 1)
    else if r.inReplyToStatusId.isSome || r.isReply then
      r :: collectReplies rootId rest cap
    else collectReplies rootId rest (cap + 1)

/-- The reply transformation (lines 303-335): `parent_external_id` is
`reply.inReplyToStatusId || rootTweet.external_id` (an empty string is
falsy). -/
def transformReply (scoreFn : ScoreFn) (nowMs : Int) (rootId : String)
    (r : Tweet) : Content :=
  { external_id := r.id.getD ("")
    content := r.text.getD ("")
    author := atAuthor ((r.username.getD (r.name.getD ("Unknown"))))
    published_at := r.timeParsed.getD nowMs
    score := scoreFn r.replies r.likes (r.retweets * 2 + r.likes)
    replyCount := r.replies
    parent_external_id :=
      some (match r.inReplyToStatusId with
            | some s => if s = ("") then rootId else s
            | none => rootId) }

/-- Result of the thread-fetch loop.  `attempted` lists the roots for which
the expensive conversation fetch was started (the `try` body entered);
`fetchedRoots` lists the roots whose fetch succeeded and whose replies were
appended. -/
structure ThreadLoopOut where
  replies : List Content := []
  processed : List String := []
  fetchedRoots : List String := []
  attempted : List String := []
deriving DecidableEq, Repr

/-- The `for (const rootTweet of tweetsForThreads)` loop of `XCrawler.pull`
(lines 273-366): roots already in `processedThreadIds` are skipped before any
fetch; otherwise the conversation search `convSearch` runs inside the
per-candidate `try`, a thrown error (`Except.error`) is logged and the loop
continues with the next candidate, and on success the collected replies are
appended and the root is added to the processed set.  `fetchedRoots` records
the roots for which the expensive conversation fetch was attempted. -/
def threadLoop (convSearch : String → Except String (List Tweet))
    (scoreFn : ScoreFn) (nowMs : Int) :
    List Content → List String → ThreadLoopOut
  | [], processed =>
    { replies := [], processed := processed, fetchedRoots := [], attempted := [] }
  | root :: rest, processed =>
    if root.external_id ∈ processed then
      threadLoop convSearch scoreFn nowMs rest processed
    else
      match convSearch root.external_id with
      | .error _ =>
        let out := threadLoop convSearch scoreFn nowMs rest processed
        { out with attempted := root.external_id :: out.attempted }
      | .ok stream =>
        let rawReplies := collectReplies root.external_id stream 50
        let replyContents :=
          (rawReplies.filter validTweet).map
            (transformReply scoreFn nowMs root.external_id)
        let out := threadLoop convSearch scoreFn nowMs rest
          (root.external_id :: processed)
        { replies := replyContents ++ out.replies
          processed := out.processed
          fetchedRoots := root.external_id :: out.fetchedRoots
          attempted := root.external_id :: out.attempted }

/-- Result of `XCrawler.pull`. -/
structure PullOut where
  contents : List Content
  checkpoint : Checkpoint
  items_found : Nat
  reached_checkpoint : Bool
deriving DecidableEq, Repr

/-- The `maxResults` constant of `XCrawler.pull`. -/
def maxResults : Nat := 5000

/-- `XCrawler.pull` (src/unnamed/part_002 lines 94-415) after successful
authentication: primary search, transformation, thread enrichment, final
sort, and checkpoint derivation.  `stream` is the sequence yielded by the
primary `searchTweets` call; `convSearch` is the conversation search used by
the thread pass. -/
def pull (stream : List Tweet) (convSearch : String → Except String (List Tweet))
    (scoreFn : ScoreFn) (nowMs : Int) (options : Options)
    (checkpoint : Option Checkpoint) : PullOut :=
  let prim := primaryLoop (checkpoint.bind Checkpoint.last_tweet_id) maxResults
    stream [] []
  let contents := (prim.1.filter validTweet).map (transformTweet scoreFn nowMs)
  let minEng := minEngagement options
  let budget := maxThreads options
  let processedIn := (checkpoint.map Checkpoint.processed_thread_ids).getD []
  let isDeepMode := maxResults ≤ 20
  let threadOut :=
    if isDeepMode ∨ 0 < minEng then
      threadLoop convSearch scoreFn nowMs (threadTargets minEng budget contents)
        processedIn
    else
      { replies := [], processed := processedIn, fetchedRoots := [] }
  let combined := contents ++ threadOut.replies
  let sorted := sortByDateDesc combined
  let newCheckpoint : Checkpoint :=
    match sorted with
    | first :: _ =>
      { last_tweet_id := some first.external_id
        last_timestamp := some first.published_at
        processed_thread_ids := threadOut.processed }
    | [] =>
      { last_tweet_id := checkpoint.bind Checkpoint.last_tweet_id
        last_timestamp :=
          some (((checkpoint.bind Checkpoint.last_timestamp)).getD nowMs)
        processed_thread_ids :=
          (checkpoint.map Checkpoint.processed_thread_ids).getD [] }
  { contents := sorted
    checkpoint := newCheckpoint
    items_found := sorted.length
    reached_checkpoint := prim.2.2 }

theorem threadLoop_attempted_not_processed
    (convSearch : String → Except String (List Tweet)) (scoreFn : ScoreFn)
    (nowMs : Int) (targets : List Content) (processed : List String)
    (r : String)
    (hr : r ∈ (threadLoop convSearch scoreFn nowMs targets processed).attempted) :
    r ∉ processed := by
  induction targets generalizing processed with
  | nil => simp [threadLoop] at hr
  | cons root rest ih =>
    rw [threadLoop] at hr
    by_cases hp : root.external_id ∈ processed
    · rw [if_pos hp] at hr
      exact ih processed hr
    · rw [if_neg hp] at hr
      obtain ⟨res, hres⟩ : ∃ res, convSearch root.external_id = res := ⟨_, rfl⟩
      rw [hres] at hr
      cases res with
      | error e =>
        dsimp only at hr
        simp only [List.mem_cons] at hr
        rcases hr with h | h
        · exact h ▸ hp
        · exact ih processed h
      | ok stream =>
        dsimp only at hr
        simp only [List.mem_cons] at hr
        rcases hr with h | h
        · exact h ▸ hp
        · intro hmem
          exact ih (root.external_id :: processed) h (List.mem_cons_of_mem _ hmem)

theorem threadLoop_processed_grows
    (convSearch : String → Except String (List Tweet)) (scoreFn : ScoreFn)
    (nowMs : Int) (targets : List Content) (processed : List String)
    (r : String)
    (hr : r ∈ (threadLoop convSearch scoreFn nowMs targets processed).fetchedRoots ∨
          r ∈ processed) :
    r ∈ (threadLoop convSearch scoreFn nowMs targets processed).processed := by
  induction targets generalizing processed with
  | nil =>
    rcases hr with h | h
    · simp [threadLoop] at h
    · simpa [threadLoop] using h
  | cons root rest ih =>
    rw [threadLoop]
    rw [threadLoop] at hr
    by_cases hp : root.external_id ∈ processed
    · rw [if_pos hp] at hr ⊢
      exact ih processed hr
    · rw [if_neg hp] at hr ⊢
      obtain ⟨res, hres⟩ : ∃ res, convSearch root.external_id = res := ⟨_, rfl⟩
      rw [hres] at hr ⊢
      cases res with
      | error e =>
        dsimp only at hr ⊢
        exact ih processed hr
      | ok stream =>
        dsimp only at hr ⊢
        simp only [List.mem_cons] at hr
        rcases hr with (h | h) | h
        · exact ih _ (Or.inr (by simp [h]))
        · exact ih _ (Or.inl h)
        · exact ih _ (Or.inr (List.mem_cons_of_mem _ h))

end X

namespace Capterra

/-- Browser/resource trace state: number of currently open rendering-engine
resources. -/
structure ResourceState where
  openBrowsers : Int := 0
deriving DecidableEq, Repr

/-- `launchBrowser` effect on the resource state. -/
def launch (s : ResourceState) : ResourceState :=
  { openBrowsers := s.openBrowsers + 1 }

/-- `browser.close()` effect on the resource state. -/
def closeBrowser (s : ResourceState) : ResourceState :=
  { openBrowsers := s.openBrowsers - 1 }

/-- Result of `CapterraConnector.sync`. -/
structure SyncOut where
  result : Except String (List Content)
  state : ResourceState
deriving Repr

/-- `CapterraConnector.sync` (src/connectors/github.ts, Capterra section,
lines 1090-1261) at the resource level: the browser is launched once, the
crawl body (navigation, extraction, transformation) either returns events or
throws; the success path closes the browser and returns, the catch path
captures error artifacts (an external SDK call), closes the browser, and
rethrows. -/
def sync (body : Except String (List Content)) (s0 : ResourceState) : SyncOut :=
  let s1 := launch s0
  match body with
  | .ok events => { result := .ok events, state := closeBrowser s1 }
  | .error e => { result := .error e, state := closeBrowser s1 }

end Capterra

namespace XResource

/-- CycleTLS trace: number of `cycleTLSExit()` attempts made during the
run. -/
structure ExitTrace where
  exitAttempts : Nat := 0
deriving DecidableEq, Repr

/-- Result of `XCrawler.pull` at the resource level. -/
structure PullOut where
  result : Except String (List Content)
  trace : ExitTrace
deriving Repr

/-- `XCrawler.pull` (src/unnamed/part_002 lines 125-414) at the resource
level.  The whole crawl body runs inside one `try`: on success
`cycleTLSExit()` is called and the result returned (a failure of that very
cleanup call is itself caught by the outer `catch`); the `catch` block calls
`cycleTLSExit()` once more inside its own inner `try` (swallowing a cleanup
failure) and rethrows the error wrapped in an `X crawler failed` message. -/
def pull (body : Except String (List Content)) (cleanupFails : Bool) : PullOut :=
  let attempt : Except String (List Content) × Nat :=
    match body with
    | .error e => (.error e, 0)
    | .ok r =>
      if cleanupFails then (.error ("cycleTLSExit failed"), 1) else (.ok r, 1)
  match attempt.1 with
  | .ok r => { result := .ok r, trace := { exitAttempts := attempt.2 } }
  | .error e =>
    { result := .error (("X crawler failed: ") ++ e)
      trace := { exitAttempts := attempt.2 + 1 } }

end XResource

namespace Scenario

/-- A Reddit post surviving all filters, created at epoch second 100. -/
def c1Child : Reddit.Child :=
  { name := "abc", author := "alice", created_utc := 100, selftext := "hello" }

/-- A one-page Reddit source that serves the same post on every run. -/
def c1Fetch : Nat → Reddit.Listing :=
  fun _ => { children := [c1Child], after := none }

/-- Reddit run N of the C1 scenario (wall clock 500000 ms, no checkpoint). -/
def c1Run1 : Reddit.SyncOut :=
  Reddit.sync c1Fetch ("post") 0 500000 none

/-- Reddit run N+1 of the C1 scenario, given run N's checkpoint. -/
def c1Run2 : Reddit.SyncOut :=
  Reddit.sync c1Fetch ("post") 0 900000 (some c1Run1.checkpoint)

/-- First Google review (epoch second 100) for the C1 witness. -/
def c1Rev1 : GMaps.Review := { time := 100, text := "old" }

/-- Second Google review (epoch second 200) for the C1 witness. -/
def c1Rev2 : GMaps.Review := { time := 200, text := "new" }

/-- Google Maps run N of the C1 witness. -/
def c1GRun1 : GMaps.PullOut :=
  GMaps.pull ("p") [c1Rev1] none 0

/-- Google Maps run N+1 of the C1 witness, given run N's checkpoint. -/
def c1GRun2 : GMaps.PullOut :=
  GMaps.pull ("p") [c1Rev1, c1Rev2] (some c1GRun1.checkpoint) 0

/-- Page whose only item sits exactly at the cutoff instant (epoch second
1000 with cutoff 1000000 ms), with a next-page token. -/
def c2Page0 : Reddit.Listing :=
  { children := [{ name := "e", author := "alice", created_utc := 1000, selftext := "x" }]
    after := some ("n") }

/-- Follow-up page strictly older than the cutoff. -/
def c2Page1 : Reddit.Listing :=
  { children := [{ name := "f", author := "bob", created_utc := 999, selftext := "y" }]
    after := none }

/-- Fetcher of the C2 counterexample. -/
def c2Fetch : Nat → Reddit.Listing :=
  fun n => if n = 0 then c2Page0 else c2Page1

/-- Pagination-loop output of the C2 counterexample run (cutoff 1000000 ms,
i.e. the first page's item timestamp equals the cutoff). -/
def c2Out : Reddit.LoopOut :=
  Reddit.syncLoop c2Fetch ("post") 1000000 Reddit.MAX_PAGES 0 none

/-- A filter-surviving Reddit post at epoch second `u`, for the C2 amended
scenario. -/
def c2Child (nm : String) (u : Int) : Reddit.Child :=
  { name := nm, author := "alice", created_utc := u, selftext := "x" }

/-- The C2 scenario page: timestamps `[T+5, T+3, T-1, T-2]` (seconds) in
descending order, with a next-page token present. -/
def c2ScenarioPage (T : Int) : Reddit.Listing :=
  { children := [c2Child ("a1") (T + 5), c2Child ("a2") (T + 3),
                 c2Child ("a3") (T - 1), c2Child ("a4") (T - 2)]
    after := some ("n") }

end Scenario

theorem mem_le_head_of_sortByDateDesc (l : List Content) (c : Content)
    (hc : c ∈ sortByDateDesc l) :
    ∃ first rest, sortByDateDesc l = first :: rest ∧
      c.published_at ≤ first.published_at := by
  cases h : sortByDateDesc l with
  | nil => rw [h] at hc; simp at hc
  | cons first rest =>
    refine ⟨first, rest, rfl, ?_⟩
    have hs := sortByDateDesc_sorted l
    rw [h] at hs hc
    rcases List.mem_cons.mp hc with h1 | h1
    · exact h1 ▸ le_refl _
    · exact List.rel_of_sorted_cons hs c h1

theorem gmapsPull_mem_le (placeId : String) (revs : List GMaps.Review)
    (cp : Option GMaps.Checkpoint) (now : Int) (c : Content)
    (hc : c ∈ (GMaps.pull placeId revs cp now).contents) :
    c.published_at ≤
      ((GMaps.pull placeId revs cp now).checkpoint.last_timestamp.getD 0) := by
  obtain ⟨first, rest, heq, hle⟩ := mem_le_head_of_sortByDateDesc _ c hc
  have hcp : (GMaps.pull placeId revs cp now).checkpoint.last_timestamp =
      some first.published_at := by
    unfold GMaps.pull
    dsimp only
    rw [heq]
  rw [hcp]
  simpa using hle

theorem gmapsPull_mem_gt (placeId : String) (revs : List GMaps.Review)
    (cpv : GMaps.Checkpoint) (now : Int) (c : Content)
    (hc : c ∈ (GMaps.pull placeId revs (some cpv) now).contents) :
    cpv.last_timestamp.getD 0 < c.published_at := by
  have hc' : c ∈ (revs.map (GMaps.toContent placeId)).filter
      (fun x => decide ((cpv.last_timestamp.getD 0) < x.published_at)) :=
    mem_sortByDateDesc.mp hc
  have h2 := (List.mem_filter.mp hc').2
  simpa using h2

/-- C1: checkpoint round-tripping suppresses re-emission for the Google Maps
crawler: every item run N emits is at or before run N's recorded
`last_timestamp`, and every item run N+1 emits, when given run N's
checkpoint, is strictly after it — so no item whose timestamp is not newer
than run N's `last_timestamp` appears in run N+1's output.  (The claim's
Reddit half is refuted separately: `RedditConnector.sync` never reads the
supplied checkpoint.) -/
theorem c1_gmaps_checkpoint_round_trip (placeId : String)
    (r1 r2 : List GMaps.Review) (cp0 : Option GMaps.Checkpoint)
    (now1 now2 : Int) :
    (∀ c1 ∈ (GMaps.pull placeId r1 cp0 now1).contents,
        c1.published_at ≤
          ((GMaps.pull placeId r1 cp0 now1).checkpoint.last_timestamp.getD 0)) ∧
    (∀ c2 ∈ (GMaps.pull placeId r2
        (some ((GMaps.pull placeId r1 cp0 now1).checkpoint)) now2).contents,
        ((GMaps.pull placeId r1 cp0 now1).checkpoint.last_timestamp.getD 0) <
          c2.published_at) := by
  constructor
  · intro c1 hc1
    exact gmapsPull_mem_le placeId r1 cp0 now1 c1 hc1
  · intro c2 hc2
    exact gmapsPull_mem_gt placeId r2 _ now2 c2 hc2

/-- C1 witness: concrete two-run Google Maps instance. -/
theorem c1_gmaps_checkpoint_round_trip_witness :
    (GMaps.toContent ("p") Scenario.c1Rev1).published_at ≤
      (Scenario.c1GRun1.checkpoint.last_timestamp.getD 0) ∧
    (Scenario.c1GRun1.checkpoint.last_timestamp.getD 0) <
      (GMaps.toContent ("p") Scenario.c1Rev2).published_at := by
  constructor
  · exact (c1_gmaps_checkpoint_round_trip ("p") [Scenario.c1Rev1]
      [Scenario.c1Rev1, Scenario.c1Rev2] none 0 0).1
      (GMaps.toContent ("p") Scenario.c1Rev1) (by decide)
  · exact (c1_gmaps_checkpoint_round_trip ("p") [Scenario.c1Rev1]
      [Scenario.c1Rev1, Scenario.c1Rev2] none 0 0).2
      (GMaps.toContent ("p") Scenario.c1Rev2) (by decide)

/-- C1 counterexample: the Reddit connector ignores the supplied checkpoint.
Run N emits `reddit_post_abc` with `published_at = 100000`; run N's written
checkpoint records `last_timestamp = 500000`; run N+1, given exactly that
checkpoint over the same pages, emits the very same item again even though
its timestamp is not newer than run N's recorded `last_timestamp` — refuting
the claim as stated for `RedditConnector.sync`. -/
theorem c1_reddit_reemission_counterexample :
    Scenario.c1Run1.events.map Content.external_id = [("reddit_post_abc")] ∧
    Scenario.c1Run1.checkpoint.last_timestamp = some 500000 ∧
    Scenario.c1Run2.events.map Content.external_id = [("reddit_post_abc")] ∧
    Scenario.c1Run2.events.map Content.published_at = [100000] ∧
    ((100000 : Int) ≤ 500000) := by
  refine ⟨by decide, by decide, by decide, by decide, by decide⟩

/-- C2 counterexample: an item whose derived timestamp is exactly equal to
the cutoff instant does not stop the Reddit page scan.  With cutoff
1000000 ms and a first page containing exactly one item at 1000000 ms plus a
next-page token, the claim predicts termination on page one with the item
not consumed and no further fetch; the code instead emits the item, leaves
the termination flag unset, and fetches the second page. -/
theorem c2_equal_timestamp_counterexample :
    Scenario.c2Out.fetches = 2 ∧
    Scenario.c2Out.events.map Content.published_at = [1000000] ∧
    (Reddit.processChildren ("post") 1000000 Scenario.c2Page0.children).2 = false := by
  refine ⟨by decide, by decide, by decide⟩

/-- C2 (amended): the stop rule is strict — only an item strictly older than
the cutoff instant stops consumption.  For the scenario page with timestamps
`[T+5, T+3, T-1, T-2]` (seconds, cutoff `T` seconds = `T*1000` ms) exactly
the first two items are emitted, the termination flag is set, and the page
fetcher is not called again. -/
theorem c2_strict_cutoff_scenario (T : Int) (rest : Nat → Reddit.Listing) :
    (Reddit.syncLoop (fun n => if n = 0 then Scenario.c2ScenarioPage T else rest n)
        ("post") (T * 1000) Reddit.MAX_PAGES 0 none).events.map Content.external_id =
      [("reddit_post_a1"), ("reddit_post_a2")] ∧
    (Reddit.syncLoop (fun n => if n = 0 then Scenario.c2ScenarioPage T else rest n)
        ("post") (T * 1000) Reddit.MAX_PAGES 0 none).fetches = 1 ∧
    (Reddit.processChildren ("post") (T * 1000)
        (Scenario.c2ScenarioPage T).children).2 = true := by
  have h5 : ¬ ((T + 5) * 1000 < T * 1000) := by omega
  have h3 : ¬ ((T + 3) * 1000 < T * 1000) := by omega
  have h1 : (T - 1) * 1000 < T * 1000 := by omega
  have hp : Reddit.processChildren ("post") (T * 1000)
      [Scenario.c2Child ("a1") (T + 5), Scenario.c2Child ("a2") (T + 3),
       Scenario.c2Child ("a3") (T - 1), Scenario.c2Child ("a4") (T - 2)] =
      ([Reddit.transformPost (Scenario.c2Child ("a1") (T + 5)),
        Reddit.transformPost (Scenario.c2Child ("a2") (T + 3))], true) := by
    simp [Reddit.processChildren, Scenario.c2Child,
      Reddit.hasCrosspostParent, h5, h3, h1]
  have hstep : Reddit.syncLoop
      (fun n => if n = 0 then Scenario.c2ScenarioPage T else rest n)
      ("post") (T * 1000) Reddit.MAX_PAGES 0 none =
      { events := [Reddit.transformPost (Scenario.c2Child ("a1") (T + 5)),
                   Reddit.transformPost (Scenario.c2Child ("a2") (T + 3))]
        fetches := 1
        after := some ("n") } := by
    rw [show Reddit.MAX_PAGES = 9 + 1 from rfl, Reddit.syncLoop]
    simp [hp, Scenario.c2ScenarioPage]
  refine ⟨?_, ?_, ?_⟩
  · rw [hstep]
    simp [Reddit.transformPost, Scenario.c2Child]
  · rw [hstep]
  · simp [Scenario.c2ScenarioPage, hp]

/-- C3: pagination termination.  Both the Hacker News connector's and the
Reddit connector's sync loop perform at most `MAX_PAGES` fetches, and a page
with no next cursor or zero items ends the loop after that single fetch
(the loops are total Lean functions, so termination holds outright). -/
theorem c3_pagination_bounded_termination :
    (∀ (fetchFn : Nat → Reddit.Listing) (ct : String) (cut : Int)
        (idx : Nat) (after : Option String),
        (Reddit.syncLoop fetchFn ct cut Reddit.MAX_PAGES idx after).fetches ≤
          Reddit.MAX_PAGES) ∧
    (∀ (fetchFn : Nat → Reddit.Listing) (ct : String) (cut : Int)
        (fuel idx : Nat) (after : Option String),
        (fetchFn idx).children = [] ∨ (fetchFn idx).after = none →
        (Reddit.syncLoop fetchFn ct cut (fuel + 1) idx after).fetches = 1) ∧
    (∀ (fetchFn : Nat → HNConn.Resp) (ct : String) (p : Nat),
        (HNConn.syncLoop fetchFn ct HNConn.MAX_PAGES p).2 ≤ HNConn.MAX_PAGES) ∧
    (∀ (fetchFn : Nat → HNConn.Resp) (ct : String) (fuel p : Nat),
        (¬ ((fetchFn p).page < (fetchFn p).nbPages - 1) ∨ (fetchFn p).hits = []) →
        (HNConn.syncLoop fetchFn ct (fuel + 1) p).2 = 1) := by
  refine ⟨?_, ?_, ?_, ?_⟩
  · intro fetchFn ct cut idx after
    exact Reddit.syncLoop_fetches_le fetchFn ct cut Reddit.MAX_PAGES idx after
  · intro fetchFn ct cut fuel idx after h
    exact Reddit.syncLoop_stop_conditions fetchFn ct cut fuel idx after h
  · intro fetchFn ct p
    exact HNConn.hnSyncLoop_fetches_le fetchFn ct HNConn.MAX_PAGES p
  · intro fetchFn ct fuel p h
    exact HNConn.hnSyncLoop_stop_conditions fetchFn ct fuel p h

namespace Scenario

/-- One of twelve qualifying X thread candidates: distinct scores 101..112. -/
def c4Tweet (i : Nat) : Content :=
  { external_id := ("t") ++ toString i, author := ("@u"),
    score := 100 + (i : Int), published_at := (i : Int) }

/-- Twelve qualifying X thread candidates. -/
def c4Contents : List Content := (List.range 12).map (fun i => c4Tweet (i + 1))

/-- Ranked, budget-capped thread targets for budget 5. -/
def c4Targets : List Content := X.threadTargets 100 5 c4Contents

/-- Thread loop over the capped targets with an empty processed set and a
successful conversation search. -/
def c4Loop : X.ThreadLoopOut :=
  X.threadLoop (fun _ => Except.ok []) (fun _ _ s => s) 0 c4Targets []

/-- One of twelve qualifying Hacker News stories. -/
def c4Story (i : Nat) : Content :=
  { external_id := ("hn_story_") ++ toString i, content := "", points := 60,
    externalUrl := some (("https://example.com/") ++ toString i),
    published_at := (i : Int) }

/-- Twelve qualifying Hacker News stories. -/
def c4Stories : List Content := (List.range 12).map (fun i => c4Story (i + 1))

/-- A thread root used by the C5 witness. -/
def c5Root : Content := { external_id := ("r1"), author := ("@x"), score := 200 }

/-- A qualifying story whose numeric id 42 sits in the carried-over
`processed_story_ids`. -/
def c5Story : Content :=
  { external_id := ("hn_story_42"), content := "", points := 60,
    externalUrl := some ("https://example.com/a") }

/-- Checkpoint carrying `processed_story_ids = [42]` from the previous run. -/
def c5Cp : HNCrawler.Checkpoint := { processed_story_ids := [42] }

end Scenario

/-- C3 witness: concrete empty-source instances of each conjunct. -/
theorem c3_pagination_bounded_termination_witness :
    (Reddit.syncLoop (fun _ => { children := [], after := none }) ("post") 0
        Reddit.MAX_PAGES 0 none).fetches ≤ Reddit.MAX_PAGES ∧
    (Reddit.syncLoop (fun _ => { children := [], after := none }) ("post") 0
        (3 + 1) 0 none).fetches = 1 ∧
    (HNConn.syncLoop (fun _ => { hits := [], page := 0, nbPages := 0 }) ("story")
        HNConn.MAX_PAGES 0).2 ≤ HNConn.MAX_PAGES ∧
    (HNConn.syncLoop (fun _ => { hits := [], page := 0, nbPages := 0 }) ("story")
        (3 + 1) 0).2 = 1 := by
  refine ⟨?_, ?_, ?_, ?_⟩
  · exact c3_pagination_bounded_termination.1
      (fun _ => { children := [], after := none }) ("post") 0 0 none
  · exact c3_pagination_bounded_termination.2.1
      (fun _ => { children := [], after := none }) ("post") 0 3 0 none
      (Or.inl (by decide))
  · exact c3_pagination_bounded_termination.2.2.1
      (fun _ => { hits := [], page := 0, nbPages := 0 }) ("story") 0
  · exact c3_pagination_bounded_termination.2.2.2
      (fun _ => { hits := [], page := 0, nbPages := 0 }) ("story") 3 0
      (Or.inr (by decide))

/-- C4 (amended): budgeted, ranked enrichment holds for the X crawler's
thread-fetch pass: with budget `max_threads_to_fetch = 5` and 12 qualifying
candidates, none previously enriched, exactly the 5 highest-scored are
fetched.  (The Hacker News external-content pass is refuted separately: it
has no ranking and no budget.) -/
theorem c4_x_budgeted_ranked_enrichment :
    X.maxThreads { search_query := ("q"), max_threads_to_fetch := some 5 } = 5 ∧
    (Scenario.c4Contents.filter (X.isThreadCandidate 100)).length = 12 ∧
    Scenario.c4Targets.map Content.external_id =
      [("t12"), ("t11"), ("t10"), ("t9"), ("t8")] ∧
    Scenario.c4Loop.attempted = [("t12"), ("t11"), ("t10"), ("t9"), ("t8")] := by
  refine ⟨by decide, by decide, by decide, by decide⟩

/-- C4 counterexample: the Hacker News crawler's external-content pass
performs one expensive fetch per qualifying story — with 12 qualifying
candidates it performs 12 fetches, not the 5 a budget of 5 would allow. -/
theorem c4_hn_no_budget_counterexample :
    (Scenario.c4Stories.filter HNCrawler.qualifiesForFetch).length = 12 ∧
    (HNCrawler.enrichStories (fun _ => Except.ok none) Scenario.c4Stories).2.length = 12 ∧
    ¬ ((HNCrawler.enrichStories (fun _ => Except.ok none) Scenario.c4Stories).2.length = 5) := by
  refine ⟨by decide, by decide, by decide⟩

/-- C5 (amended): enrichment idempotence holds for the X crawler's thread
pass: every root whose expensive conversation fetch is attempted is absent
from the carried-over `processed_thread_ids`, and every successfully fetched
root lands in the returned set — so re-running with the returned set performs
zero fetches for completed candidates.  (The Hacker News crawler is refuted
separately: its enrichment never consults `processed_story_ids`.) -/
theorem c5_x_thread_enrichment_idempotent
    (convSearch : String → Except String (List X.Tweet)) (scoreFn : X.ScoreFn)
    (nowMs : Int) (targets : List Content) (processed : List String)
    (r : String) :
    (r ∈ (X.threadLoop convSearch scoreFn nowMs targets processed).attempted →
      r ∉ processed) ∧
    (r ∈ (X.threadLoop convSearch scoreFn nowMs targets processed).fetchedRoots →
      r ∈ (X.threadLoop convSearch scoreFn nowMs targets processed).processed) := by
  constructor
  · exact fun h =>
      X.threadLoop_attempted_not_processed convSearch scoreFn nowMs targets processed r h
  · exact fun h =>
      X.threadLoop_processed_grows convSearch scoreFn nowMs targets processed r (Or.inl h)

/-- C5 witness: a fresh root is fetched exactly because it is not in the
carried set, and it enters the returned processed set. -/
theorem c5_x_thread_enrichment_idempotent_witness :
    (("r1") ∉ [("r0")]) ∧
    ("r1") ∈ (X.threadLoop (fun _ => Except.ok []) (fun _ _ s => s) 0
      [Scenario.c5Root] [("r0")]).processed := by
  have t := c5_x_thread_enrichment_idempotent (fun _ => Except.ok [])
    (fun _ _ s => s) 0 [Scenario.c5Root] [("r0")] ("r1")
  exact ⟨t.1 (by decide), t.2 (by decide)⟩

/-- C5 counterexample: the Hacker News crawler re-fetches a candidate whose
story id is in the carried-over `processed_story_ids`: story 42 is in the
set, still qualifies, and the run performs the expensive fetch for it
anyway. -/
theorem c5_hn_ignores_processed_counterexample :
    ((42 : Int) ∈ Scenario.c5Cp.processed_story_ids) ∧
    HNCrawler.storyNum Scenario.c5Story.external_id = 42 ∧
    HNCrawler.qualifiesForFetch Scenario.c5Story = true ∧
    (HNCrawler.pullPost (fun _ => Except.ok none) [Scenario.c5Story]
        (some Scenario.c5Cp) false).fetchedUrls = [("https://example.com/a")] := by
  refine ⟨by decide, by decide, by decide, by decide⟩

theorem threadLoop_all_fail (convSearch : String → Except String (List X.Tweet))
    (scoreFn : X.ScoreFn) (nowMs : Int)
    (hfail : ∀ s, ∃ e, convSearch s = Except.error e)
    (targets : List Content) (processed : List String) :
    (X.threadLoop convSearch scoreFn nowMs targets processed).replies = [] ∧
    (X.threadLoop convSearch scoreFn nowMs targets processed).processed = processed := by
  induction targets generalizing processed with
  | nil => simp [X.threadLoop]
  | cons root rest ih =>
    rw [X.threadLoop]
    by_cases hp : root.external_id ∈ processed
    · rw [if_pos hp]
      exact ih processed
    · rw [if_neg hp]
      obtain ⟨e, he⟩ := hfail root.external_id
      rw [he]
      dsimp only
      exact ih processed

/-- C6: a failing expensive fetch never aborts the run or the batch.  For the
X crawler: every primary-search item appears in the final `pull` output for
any conversation-search behaviour, and when the conversation search throws
for every root the thread loop returns normally with no replies and an
unchanged processed set.  For the Hacker News crawler: the enrichment pass
preserves the item count and the item identities for every transport, and
when every fetch fails (the catch path) all items pass through unchanged. -/
theorem c6_enrichment_failures_isolated :
    (∀ (stream : List X.Tweet) (convSearch : String → Except String (List X.Tweet))
        (scoreFn : X.ScoreFn) (nowMs : Int) (options : X.Options)
        (checkpoint : Option X.Checkpoint) (c : Content),
      c ∈ ((X.primaryLoop (checkpoint.bind X.Checkpoint.last_tweet_id)
            X.maxResults stream [] []).1.filter X.validTweet).map
            (X.transformTweet scoreFn nowMs) →
      c ∈ (X.pull stream convSearch scoreFn nowMs options checkpoint).contents) ∧
    (∀ (convSearch : String → Except String (List X.Tweet)) (scoreFn : X.ScoreFn)
        (nowMs : Int) (targets : List Content) (processed : List String),
      (∀ s, ∃ e, convSearch s = Except.error e) →
      (X.threadLoop convSearch scoreFn nowMs targets processed).replies = [] ∧
      (X.threadLoop convSearch scoreFn nowMs targets processed).processed = processed) ∧
    (∀ (transport : String → Except String (Option String)) (l : List Content),
      (HNCrawler.enrichStories transport l).1.length = l.length ∧
      (HNCrawler.enrichStories transport l).1.map Content.external_id =
        l.map Content.external_id) ∧
    (∀ (transport : String → Except String (Option String)) (l : List Content),
      (∀ u, HNCrawler.fetchExternalContent transport u = none) →
      (HNCrawler.enrichStories transport l).1 = l) := by
  refine ⟨?_, ?_, ?_, ?_⟩
  · intro stream convSearch scoreFn nowMs options checkpoint c hc
    exact mem_sortByDateDesc.mpr (List.mem_append_left _ hc)
  · intro convSearch scoreFn nowMs targets processed hfail
    exact threadLoop_all_fail convSearch scoreFn nowMs hfail targets processed
  · intro transport l
    exact ⟨HNCrawler.enrichStories_length transport l,
      HNCrawler.enrichStories_ids transport l⟩
  · intro transport l hfail
    exact HNCrawler.enrichStories_failure_keeps_items transport hfail l

/-- C6 witness: with an always-throwing conversation search and an
always-throwing external-content transport, the X primary item is still in
the final output and the Hacker News stories pass through unchanged. -/
theorem c6_enrichment_failures_isolated_witness :
    (X.transformTweet (fun _ _ s => s) 0
        { id := some ("1"), text := some ("root"), username := some ("Google") } ∈
      (X.pull [{ id := some ("1"), text := some ("root"), username := some ("Google") }]
        (fun _ => Except.error ("boom")) (fun _ _ s => s) 0
        { search_query := ("q") } none).contents) ∧
    (X.threadLoop (fun _ => Except.error ("boom")) (fun _ _ s => s) 0
        [Scenario.c5Root] []).replies = [] ∧
    (HNCrawler.enrichStories (fun _ => Except.error ("down")) [Scenario.c5Story]).1 =
      [Scenario.c5Story] := by
  refine ⟨?_, ?_, ?_⟩
  · exact c6_enrichment_failures_isolated.1
      [{ id := some ("1"), text := some ("root"), username := some ("Google") }]
      (fun _ => Except.error ("boom")) (fun _ _ s => s) 0
      { search_query := ("q") } none
      (X.transformTweet (fun _ _ s => s) 0
        { id := some ("1"), text := some ("root"), username := some ("Google") })
      (by decide)
  · exact (c6_enrichment_failures_isolated.2.1 (fun _ => Except.error ("boom"))
      (fun _ _ s => s) 0 [Scenario.c5Root] []
      (fun s => ⟨("boom"), rfl⟩)).1
  · exact c6_enrichment_failures_isolated.2.2.2 (fun _ => Except.error ("down"))
      [Scenario.c5Story] (fun u => rfl)

namespace Scenario

/-- A Reddit page whose items arrive in ascending timestamp order (as a
relevance-sorted search page can). -/
def c7Fetch : Nat → Reddit.Listing :=
  fun _ =>
    { children := [{ name := "p", author := "alice", created_utc := 100, selftext := "x" },
                   { name := "q", author := "alice", created_utc := 200, selftext := "y" }]
      after := none }

/-- The Reddit connector run over that page. -/
def c7Run : Reddit.SyncOut := Reddit.sync c7Fetch ("post") 0 0 none

/-- First occurrence of id `i1` (C8 witness). -/
def c8A : Content := { external_id := ("i1"), published_at := 5 }

/-- The only occurrence of id `i2` (C8 witness). -/
def c8B : Content := { external_id := ("i2"), published_at := 3 }

/-- A later duplicate of id `i1` with different payload (C8 witness). -/
def c8A2 : Content := { external_id := ("i1"), published_at := 1 }

/-- Input with a repeated `external_id` (C8 witness). -/
def c8Items : List Content := [c8A, c8B, c8A2]

/-- The C10 root tweet: from an official account, so it qualifies for thread
fetching regardless of score. -/
def c10Root : X.Tweet :=
  { id := some ("1"), text := some ("root"), username := some ("Google"),
    timeParsed := some 300 }

/-- The C10 reply tweet: it appears both in the primary search results and in
the conversation search for the root. -/
def c10Reply : X.Tweet :=
  { id := some ("2"), text := some ("reply"), username := some ("bob"),
    isReply := true, inReplyToStatusId := some ("1"), timeParsed := some 200 }

/-- Primary search stream containing both the root and the reply. -/
def c10Stream : List X.Tweet := [c10Root, c10Reply]

/-- Conversation search returning the same reply for the root's thread. -/
def c10Conv : String → Except String (List X.Tweet) :=
  fun s => if s = ("1") then Except.ok [c10Reply] else Except.ok []

/-- The full C10 `XCrawler.pull` run. -/
def c10Pull : X.PullOut :=
  X.pull c10Stream c10Conv (fun _ _ s => s) 0 { search_query := ("q") } none

end Scenario

/-- C7 counterexample: `RedditConnector.sync` returns events in fetch order
without any sort — a page whose surviving items arrive in ascending
`published_at` order is returned ascending, not descending. -/
theorem c7_reddit_unsorted_counterexample :
    Scenario.c7Run.events.map Content.published_at = [100000, 200000] ∧
    ¬ (Scenario.c7Run.events.map Content.published_at).Sorted
        (fun a b : Int => b ≤ a) := by
  refine ⟨by decide, by decide⟩

/-- C7 (amended): the GitHub crawler's pull, the Reddit crawler's pull and
the X crawler's pull each return contents sorted by `published_at`
descending; the Reddit connector's `sync` does not sort (refuted
separately). -/
theorem c7_outputs_sorted_descending :
    (∀ contents : List Content,
      ((GitHubCrawler.pullPost contents).contents).Sorted dateGe) ∧
    (∀ contents : List Content,
      ((RedditCrawler.pullPost contents).contents).Sorted dateGe) ∧
    (∀ (stream : List X.Tweet) (convSearch : String → Except String (List X.Tweet))
        (scoreFn : X.ScoreFn) (nowMs : Int) (options : X.Options)
        (checkpoint : Option X.Checkpoint),
      ((X.pull stream convSearch scoreFn nowMs options checkpoint).contents).Sorted
        dateGe) := by
  refine ⟨?_, ?_, ?_⟩
  · intro contents
    exact sortByDateDesc_sorted _
  · intro contents
    exact sortByDateDesc_sorted _
  · intro stream convSearch scoreFn nowMs options checkpoint
    exact sortByDateDesc_sorted _

/-- C8: deduplication yields each `external_id` exactly once (`min 1` of its
input multiplicity), preserves first-seen order (the output is a sublist of
the input and each kept element is the first input element with its id), and
at both `pull` call-sites `items_skipped` equals the pre-dedup length minus
the returned unique length. -/
theorem c8_dedupe_once_first_seen_skip_count :
    (∀ (items : List Content) (i : String),
      ((deduplicate items).map Content.external_id).count i =
        min 1 ((items.map Content.external_id).count i)) ∧
    (∀ items : List Content, (deduplicate items).Sublist items) ∧
    (∀ (items : List Content) (c : Content), c ∈ deduplicate items →
      items.find? (fun d => d.external_id == c.external_id) = some c) ∧
    (∀ contents : List Content,
      (GitHubCrawler.pullPost contents).items_skipped =
        contents.length - (GitHubCrawler.pullPost contents).contents.length) ∧
    (∀ contents : List Content,
      (RedditCrawler.pullPost contents).items_skipped =
        contents.length - (RedditCrawler.pullPost contents).contents.length) := by
  refine ⟨deduplicate_count, deduplicate_sublist, deduplicate_first_occurrence,
    ?_, ?_⟩
  · intro contents
    show contents.length - (deduplicate contents).length =
      contents.length - (sortByDateDesc (deduplicate contents)).length
    rw [sortByDateDesc_length]
  · intro contents
    show contents.length - (deduplicate contents).length =
      contents.length - (sortByDateDesc (deduplicate contents)).length
    rw [sortByDateDesc_length]

/-- C8 witness: a concrete input with a repeated id. -/
theorem c8_dedupe_once_first_seen_skip_count_witness :
    ((deduplicate Scenario.c8Items).map Content.external_id).count ("i1") =
      min 1 ((Scenario.c8Items.map Content.external_id).count ("i1")) ∧
    Scenario.c8Items.find?
      (fun d => d.external_id == Scenario.c8A.external_id) = some Scenario.c8A ∧
    (GitHubCrawler.pullPost Scenario.c8Items).items_skipped =
      Scenario.c8Items.length -
        (GitHubCrawler.pullPost Scenario.c8Items).contents.length := by
  refine ⟨c8_dedupe_once_first_seen_skip_count.1 Scenario.c8Items ("i1"),
    c8_dedupe_once_first_seen_skip_count.2.2.1 Scenario.c8Items Scenario.c8A
      (by decide),
    c8_dedupe_once_first_seen_skip_count.2.2.2.1 Scenario.c8Items⟩

/-- C9: the rendering-engine resource is released on every exit path.  The
Capterra sync leaves the browser count unchanged (launch balanced by a close
on both the success and the catch path) while faithfully returning the
body's outcome; the X pull always attempts the CycleTLS cleanup at least
once and rethrows the body's error wrapped in the `X crawler failed`
message. -/
theorem c9_rendering_resource_released_on_all_paths :
    (∀ (body : Except String (List Content)) (s0 : Capterra.ResourceState),
      (Capterra.sync body s0).state.openBrowsers = s0.openBrowsers ∧
      (Capterra.sync body s0).result = body) ∧
    (∀ (body : Except String (List Content)) (cleanupFails : Bool),
      1 ≤ (XResource.pull body cleanupFails).trace.exitAttempts ∧
      (∀ e, body = Except.error e →
        (XResource.pull body cleanupFails).result =
          Except.error (("X crawler failed: ") ++ e))) := by
  constructor
  · intro body s0
    cases body <;>
      simp [Capterra.sync, Capterra.launch, Capterra.closeBrowser]
  · intro body cleanupFails
    constructor
    · cases body <;> cases cleanupFails <;> simp [XResource.pull]
    · intro e he
      subst he
      cases cleanupFails <;> simp [XResource.pull]

/-- C9 witness: a concrete failing body. -/
theorem c9_rendering_resource_released_witness :
    (Capterra.sync (Except.error ("boom")) { openBrowsers := 0 }).state.openBrowsers = 0 ∧
    1 ≤ (XResource.pull (Except.error ("boom")) false).trace.exitAttempts ∧
    (XResource.pull (Except.error ("boom")) false).result =
      Except.error (("X crawler failed: ") ++ ("boom")) := by
  refine ⟨(c9_rendering_resource_released_on_all_paths.1
      (Except.error ("boom")) { openBrowsers := 0 }).1,
    (c9_rendering_resource_released_on_all_paths.2 (Except.error ("boom")) false).1,
    (c9_rendering_resource_released_on_all_paths.2 (Except.error ("boom")) false).2
      ("boom") rfl⟩

/-- C10: `XCrawler.pull` can emit two items with the same `external_id`: the
seen-id set guards only the primary search loop, and thread-pass replies are
appended without consulting it, so a reply that also surfaced in the primary
search is emitted twice.  In the concrete run the reply with id 2 appears
once from the primary search and once from the conversation thread. -/
theorem c10_duplicate_reply_emission :
    ((Scenario.c10Pull.contents.map Content.external_id).count ("2")) = 2 ∧
    Scenario.c10Pull.contents.length = 3 := by
  refine ⟨by decide, by decide⟩

end Owletto
